import Mathlib

/-!
Verification of `skills/twitter/reply_tweet.py` (the `TwitterReplyTweet` tool).

The Python module defines an input schema `TwitterReplyTweetInput` (pydantic,
`text` limited to 280 characters) and a tool class `TwitterReplyTweet` whose
`_run` method

  1. checks the client-side rate limit (48 requests / 1440 minutes) unless
     key-based authentication is active,
  2. obtains a client from `self.twitter.get_client()`,
  3. posts the reply via `client.create_tweet(...)`,
  4. interprets the response (`"data" in response and "id" in response["data"]`),

with the whole body wrapped in `try/except Exception` that converts any
exception into an error string.  `_arun` delegates to `_run`.

Collaborators (`self.twitter`, `check_rate_limit`, `_get_error_with_username`)
live in the base class `TwitterBaseTool`, which is not part of this module;
they are embedded as uninterpreted fields of the tool record, except for
`_get_error_with_username`, which is modelled from the spec.

Fallible collaborator calls are embedded as `Except String` values, the error
carrying the exception's message (`str(e)`).  The run is instrumented with a
trace recording which collaborators were consulted and with which arguments,
so that "never consults X" claims are statable.
-/

/-- Shape of the platform response's `data` entry: it may or may not carry the
`id` of the newly created tweet (Python: `"id" in response["data"]`). -/
structure TweetData where
  id : Option String
deriving Repr, DecidableEq

/-- Shape of the platform response: it may or may not carry a `data` entry
(Python: `"data" in response`). -/
structure Response where
  data : Option TweetData
deriving Repr, DecidableEq

/-- The tweepy client handle.  Its `create_tweet(text, user_auth,
in_reply_to_tweet_id)` call either returns a `Response` or raises, the raised
exception's message being the `String` of the error case. -/
structure TwitterClient where
  create_tweet : String → Bool → String → Except String Response

/-- The `self.twitter` object of the base class: the `use_key` flag and
`get_client()`, which may return a client, return nothing (falsy), or raise. -/
structure TwitterAccount where
  use_key : Bool
  get_client : Except String (Option TwitterClient)

/-- The `TwitterReplyTweet` tool: its `self.twitter`, its inherited
`check_rate_limit(max_requests, interval)` (which returns the pair
`(is_rate_limited, error)` or raises), and the acting user's identity used by
`_get_error_with_username`. -/
structure TwitterReplyTweet where
  twitter : TwitterAccount
  check_rate_limit : Nat → Nat → Except String (Bool × String)
  username : String

/-- Modelled from the spec: `_get_error_with_username` of the missing base
class `TwitterBaseTool` returns "an error string embedding the caller's
identity and the ... explanatory message" (spec §4.1, §6: error strings
include "the acting user's identity where available"). -/
def getErrorWithUsername (username msg : String) : String :=
  msg ++ " (Username: " ++ username ++ ")"

/-- Trace of collaborator calls made during one `_run`:
the `(max_requests, interval)` arguments of each `check_rate_limit` call, the
number of `get_client()` calls, and the `(text, user_auth,
in_reply_to_tweet_id)` arguments of each `create_tweet` network call. -/
structure Trace where
  rateChecks : List (Nat × Nat)
  clientGets : Nat
  createCalls : List (String × Bool × String)
deriving Repr, DecidableEq

/-- Outcome of one instrumented `_run`: the returned string, the tool object
after the call (the method assigns to no field of `self`, so it is returned
unchanged), and the collaborator-call trace. -/
structure RunOut where
  result : String
  self_after : TwitterReplyTweet
  trace : Trace

/-- Steps 2–4 of `_run` (lines 54–68 of the source), entered once the
rate-limit gate has been passed: obtain the client, post the reply, interpret
the response; each raise site is routed to the enclosing `except Exception`
handler (line 70–71). `tr` is the trace accumulated by step 1. -/
def stepsTwoToFour (self : TwitterReplyTweet) (tweet_id text : String)
    (tr : Trace) : RunOut :=
  match self.twitter.get_client with
  | .error e =>
      ⟨getErrorWithUsername self.username ("Error posting reply tweet: " ++ e),
       self, { tr with clientGets := tr.clientGets + 1 }⟩
  | .ok none =>
      ⟨getErrorWithUsername self.username
         "Failed to get Twitter client. Please check your authentication.",
       self, { tr with clientGets := tr.clientGets + 1 }⟩
  | .ok (some client) =>
      let tr1 : Trace := { tr with clientGets := tr.clientGets + 1 }
      match client.create_tweet text self.twitter.use_key tweet_id with
      | .error e =>
          ⟨getErrorWithUsername self.username
             ("Error posting reply tweet: " ++ e),
           self,
           { tr1 with createCalls :=
               tr1.createCalls ++ [(text, self.twitter.use_key, tweet_id)] }⟩
      | .ok response =>
          let tr2 : Trace := { tr1 with createCalls :=
              tr1.createCalls ++ [(text, self.twitter.use_key, tweet_id)] }
          match response.data with
          | some d =>
              match d.id with
              | some reply_id =>
                  ⟨"Reply posted successfully! Reply Tweet ID: " ++ reply_id,
                   self, tr2⟩
              | none =>
                  ⟨getErrorWithUsername self.username
                     "Failed to post reply tweet.", self, tr2⟩
          | none =>
              ⟨getErrorWithUsername self.username
                 "Failed to post reply tweet.", self, tr2⟩

/-- Instrumented embedding of `TwitterReplyTweet._run` (lines 30–71).
Step 1 (lines 44–52): when `use_key` is false, call
`check_rate_limit(max_requests=48, interval=1440)` and short-circuit when
limited; a raise from the check lands in the same `except Exception` handler,
since the `try` block opens before the check. -/
def TwitterReplyTweet._runT (self : TwitterReplyTweet)
    (tweet_id text : String) : RunOut :=
  if !self.twitter.use_key then
    match self.check_rate_limit 48 1440 with
    | .error e =>
        ⟨getErrorWithUsername self.username
           ("Error posting reply tweet: " ++ e),
         self, ⟨[(48, 1440)], 0, []⟩⟩
    | .ok (is_rate_limited, error) =>
        if is_rate_limited then
          ⟨getErrorWithUsername self.username
             ("Error replying to tweet: " ++ error),
           self, ⟨[(48, 1440)], 0, []⟩⟩
        else
          stepsTwoToFour self tweet_id text ⟨[(48, 1440)], 0, []⟩
  else
    stepsTwoToFour self tweet_id text ⟨[], 0, []⟩

/-- Result string of `_run`: what the Python method returns to its caller. -/
def TwitterReplyTweet._run (self : TwitterReplyTweet)
    (tweet_id text : String) : String :=
  (self._runT tweet_id text).result

/-- Async entry point `_arun` (lines 73–78): "This tool doesn't have a native
async implementation, so we call the sync version." -/
def TwitterReplyTweet._arun (self : TwitterReplyTweet)
    (tweet_id text : String) : String :=
  self._run tweet_id text

/-- The tool's input schema `TwitterReplyTweetInput` (lines 8–12). -/
structure TwitterReplyTweetInput where
  tweet_id : String
  text : String
deriving Repr, DecidableEq

/-- Pydantic construction/validation of `TwitterReplyTweetInput`:
`text` carries `Field(..., max_length=280)`, so construction raises a
`ValidationError` when the text exceeds 280 characters; `tweet_id` carries no
constraint beyond being present. -/
def mkTwitterReplyTweetInput (tweet_id text : String) :
    Except String TwitterReplyTweetInput :=
  if text.length > 280 then .error "ValidationError: text too long"
  else .ok ⟨tweet_id, text⟩

/-- The framework pipeline: validate the input against the schema, then (and
only then) invoke `_run` on the validated fields. -/
def invokeTool (self : TwitterReplyTweet) (tweet_id text : String) :
    Except String String :=
  match mkTwitterReplyTweetInput tweet_id text with
  | .error e => .error e
  | .ok i => .ok (self._run i.tweet_id i.text)

/-- Predicate: the character sequence of `needle` occurs contiguously inside
`hay`. -/
def containsStr (hay needle : String) : Prop :=
  ∃ p s, hay.data = p ++ needle.data ++ s

/-- Concrete client whose `create_tweet` succeeds with reply id `"123"`. -/
def replyOkClient : TwitterClient :=
  ⟨fun _ _ _ => .ok ⟨some ⟨some "123"⟩⟩⟩

/-- Concrete client whose `create_tweet` raises with message `"timeout"`. -/
def timeoutClient : TwitterClient :=
  ⟨fun _ _ _ => .error "timeout"⟩

/-- Concrete tool: non-key auth, rate limiter reports the caller limited. -/
def limitedTool : TwitterReplyTweet :=
  ⟨⟨false, .ok none⟩, fun _ _ => .ok (true, "Rate limit exceeded"), "alice"⟩

/-- Concrete tool: non-key auth, limiter passes, client raises `"timeout"`. -/
def timeoutTool : TwitterReplyTweet :=
  ⟨⟨false, .ok (some timeoutClient)⟩, fun _ _ => .ok (false, ""), "alice"⟩

/-- Concrete tool: non-key auth, limiter passes, posting succeeds. -/
def okTool : TwitterReplyTweet :=
  ⟨⟨false, .ok (some replyOkClient)⟩, fun _ _ => .ok (false, ""), "alice"⟩

/-- Concrete tool: non-key auth, limiter passes, `get_client()` returns
nothing. -/
def noClientTool : TwitterReplyTweet :=
  ⟨⟨false, .ok none⟩, fun _ _ => .ok (false, ""), "alice"⟩

/-- Concrete tool whose `check_rate_limit` itself raises `"boom"`. -/
def rateRaiseTool : TwitterReplyTweet :=
  ⟨⟨false, .ok none⟩, fun _ _ => .error "boom", "alice"⟩

/-- A 281-character text, one past the schema's `max_length`. -/
def longText : String :=
  String.mk (List.replicate 281 'a')

theorem str_data_append (a b : String) :
    (a ++ b).data = a.data ++ b.data := by
  cases a; cases b; rfl

theorem getErrorWithUsername_contains_msg (u msg : String) :
    containsStr (getErrorWithUsername u msg) msg := by
  refine ⟨[], (" (Username: " ++ u ++ ")").data, ?_⟩
  simp [getErrorWithUsername, str_data_append]

theorem getErrorWithUsername_contains_user (u msg : String) :
    containsStr (getErrorWithUsername u msg) u := by
  refine ⟨(msg ++ " (Username: ").data, ")".data, ?_⟩
  simp [getErrorWithUsername, str_data_append]

theorem getErrorWithUsername_contains_msg_suffix (u pre e : String) :
    containsStr (getErrorWithUsername u (pre ++ e)) e := by
  refine ⟨pre.data, (" (Username: " ++ u ++ ")").data, ?_⟩
  simp [getErrorWithUsername, str_data_append]

theorem stepsTwoToFour_rateChecks (self : TwitterReplyTweet)
    (tweet_id text : String) (tr : Trace) :
    (stepsTwoToFour self tweet_id text tr).trace.rateChecks = tr.rateChecks := by
  unfold stepsTwoToFour
  rcases self.twitter.get_client with e | c
  · rfl
  · rcases c with _ | client
    · rfl
    · rcases h : client.create_tweet text self.twitter.use_key tweet_id with e | r
      · simp [h]
      · rcases r with ⟨_ | d⟩
        · simp [h]
        · rcases d with ⟨_ | i⟩ <;> simp [h]

/-- C1: the rate-limit check with `max_requests = 48`, `interval = 1440` is
performed exactly once when authentication is not key-based, and never when
`use_key` is true — for every collaborator behavior and every input. -/
theorem rate_check_iff_not_key (t : TwitterReplyTweet) (tid txt : String) :
    (t._runT tid txt).trace.rateChecks =
      if t.twitter.use_key then [] else [(48, 1440)] := by
  unfold TwitterReplyTweet._runT
  rcases hk : t.twitter.use_key with _ | _
  · simp only [hk, Bool.not_false, if_true, if_false]
    rcases hr : t.check_rate_limit 48 1440 with e | ⟨lim, err⟩
    · rfl
    · rcases lim with _ | _
      · simp [stepsTwoToFour_rateChecks]
      · rfl
  · simp only [hk, Bool.not_true, if_false, if_true]
    simp [stepsTwoToFour_rateChecks]

theorem runT_pass_gate (t : TwitterReplyTweet) (tid txt gmsg : String)
    (hgate : t.twitter.use_key = true
      ∨ t.check_rate_limit 48 1440 = .ok (false, gmsg)) :
    t._runT tid txt = stepsTwoToFour t tid txt ⟨[], 0, []⟩
    ∨ t._runT tid txt = stepsTwoToFour t tid txt ⟨[(48, 1440)], 0, []⟩ := by
  rcases hgate with hk | hr
  · left; unfold TwitterReplyTweet._runT; simp [hk]
  · rcases hk : t.twitter.use_key with _ | _
    · right; unfold TwitterReplyTweet._runT; simp [hk, hr]
    · left; unfold TwitterReplyTweet._runT; simp [hk]

theorem stepsTwoToFour_client_error (t : TwitterReplyTweet)
    (tid txt : String) (tr : Trace) (e : String)
    (h : t.twitter.get_client = .error e) :
    (stepsTwoToFour t tid txt tr).result =
      getErrorWithUsername t.username ("Error posting reply tweet: " ++ e) := by
  unfold stepsTwoToFour; rw [h]

theorem stepsTwoToFour_no_client (t : TwitterReplyTweet)
    (tid txt : String) (tr : Trace)
    (h : t.twitter.get_client = .ok none) :
    (stepsTwoToFour t tid txt tr).result =
      getErrorWithUsername t.username
        "Failed to get Twitter client. Please check your authentication."
    ∧ (stepsTwoToFour t tid txt tr).trace.createCalls = tr.createCalls := by
  unfold stepsTwoToFour; rw [h]; exact ⟨rfl, rfl⟩

theorem stepsTwoToFour_create_error (t : TwitterReplyTweet)
    (tid txt : String) (tr : Trace) (c : TwitterClient) (e : String)
    (hc : t.twitter.get_client = .ok (some c))
    (he : c.create_tweet txt t.twitter.use_key tid = .error e) :
    (stepsTwoToFour t tid txt tr).result =
      getErrorWithUsername t.username ("Error posting reply tweet: " ++ e) := by
  unfold stepsTwoToFour
  rw [hc]
  simp [he]

theorem stepsTwoToFour_create_ok (t : TwitterReplyTweet)
    (tid txt : String) (tr : Trace) (c : TwitterClient) (r : Response)
    (hc : t.twitter.get_client = .ok (some c))
    (hr : c.create_tweet txt t.twitter.use_key tid = .ok r) :
    (stepsTwoToFour t tid txt tr).result =
      match r.data with
      | some d =>
          match d.id with
          | some i => "Reply posted successfully! Reply Tweet ID: " ++ i
          | none => getErrorWithUsername t.username "Failed to post reply tweet."
      | none => getErrorWithUsername t.username "Failed to post reply tweet." := by
  unfold stepsTwoToFour
  rw [hc]
  rcases r with ⟨_ | ⟨_ | i⟩⟩ <;> simp [hr]

theorem stepsTwoToFour_self (t : TwitterReplyTweet)
    (tid txt : String) (tr : Trace) :
    (stepsTwoToFour t tid txt tr).self_after = t := by
  unfold stepsTwoToFour
  rcases t.twitter.get_client with e | c
  · rfl
  · rcases c with _ | client
    · rfl
    · rcases h : client.create_tweet txt t.twitter.use_key tid with e | r
      · simp [h]
      · rcases r with ⟨_ | d⟩
        · simp [h]
        · rcases d with ⟨_ | i⟩ <;> simp [h]

theorem stepsTwoToFour_createCalls (t : TwitterReplyTweet)
    (tid txt : String) (tr : Trace) :
    (stepsTwoToFour t tid txt tr).trace.createCalls = tr.createCalls
    ∨ (stepsTwoToFour t tid txt tr).trace.createCalls =
        tr.createCalls ++ [(txt, t.twitter.use_key, tid)] := by
  unfold stepsTwoToFour
  rcases t.twitter.get_client with e | c
  · exact .inl rfl
  · rcases c with _ | client
    · exact .inl rfl
    · rcases h : client.create_tweet txt t.twitter.use_key tid with e | r
      · simp [h]
      · rcases r with ⟨_ | d⟩
        · simp [h]
        · rcases d with ⟨_ | i⟩ <;> simp [h]

/-- C2: under non-key authentication, when the rate limiter (48 requests per
1440-minute window) reports the caller limited, `_run` returns the error
string embedding the caller's identity and the limiter's message, and it
neither calls `get_client()` nor `create_tweet`. -/
theorem rate_limited_short_circuit (t : TwitterReplyTweet)
    (tid txt err : String)
    (hk : t.twitter.use_key = false)
    (hr : t.check_rate_limit 48 1440 = .ok (true, err)) :
    t._run tid txt =
      getErrorWithUsername t.username ("Error replying to tweet: " ++ err)
    ∧ containsStr (t._run tid txt) t.username
    ∧ containsStr (t._run tid txt) err
    ∧ (t._runT tid txt).trace.clientGets = 0
    ∧ (t._runT tid txt).trace.createCalls = [] := by
  have h1 : t._run tid txt =
      getErrorWithUsername t.username ("Error replying to tweet: " ++ err) := by
    unfold TwitterReplyTweet._run TwitterReplyTweet._runT
    simp [hk, hr]
  refine ⟨h1, ?_, ?_, ?_, ?_⟩
  · rw [h1]; exact getErrorWithUsername_contains_user t.username _
  · rw [h1]; exact getErrorWithUsername_contains_msg_suffix t.username _ err
  · unfold TwitterReplyTweet._runT; simp [hk, hr]
  · unfold TwitterReplyTweet._runT; simp [hk, hr]

/-- Witness for C2 at a concrete rate-limited tool. -/
theorem rate_limited_short_circuit_witness :
    limitedTool._run "1" "hi" =
      getErrorWithUsername "alice"
        ("Error replying to tweet: " ++ "Rate limit exceeded")
    ∧ containsStr (limitedTool._run "1" "hi") "alice"
    ∧ containsStr (limitedTool._run "1" "hi") "Rate limit exceeded"
    ∧ (limitedTool._runT "1" "hi").trace.clientGets = 0
    ∧ (limitedTool._runT "1" "hi").trace.createCalls = [] :=
  rate_limited_short_circuit limitedTool "1" "hi" "Rate limit exceeded" rfl rfl

/-- C3: when the rate-limit gate is passed, an exception raised while
obtaining the client or while posting the reply is caught and becomes the
returned error string, which contains the exception's message; `_run` is a
total function, so no exception propagates. -/
theorem exceptions_caught (t : TwitterReplyTweet) (tid txt e gmsg : String)
    (hgate : t.twitter.use_key = true
      ∨ t.check_rate_limit 48 1440 = .ok (false, gmsg)) :
    (t.twitter.get_client = .error e →
       t._run tid txt =
         getErrorWithUsername t.username ("Error posting reply tweet: " ++ e))
    ∧ (∀ c, t.twitter.get_client = .ok (some c) →
        c.create_tweet txt t.twitter.use_key tid = .error e →
        t._run tid txt =
          getErrorWithUsername t.username ("Error posting reply tweet: " ++ e))
    ∧ containsStr
        (getErrorWithUsername t.username ("Error posting reply tweet: " ++ e))
        e := by
  refine ⟨?_, ?_, ?_⟩
  · intro hgc
    rcases runT_pass_gate t tid txt gmsg hgate with h | h <;>
      · unfold TwitterReplyTweet._run
        rw [h]
        exact stepsTwoToFour_client_error t tid txt _ e hgc
  · intro c hc hce
    rcases runT_pass_gate t tid txt gmsg hgate with h | h <;>
      · unfold TwitterReplyTweet._run
        rw [h]
        exact stepsTwoToFour_create_error t tid txt _ c e hc hce
  · exact getErrorWithUsername_contains_msg_suffix t.username _ e

/-- Witness for C3: a client raising "timeout" yields a returned string
containing "timeout". -/
theorem exceptions_caught_witness :
    timeoutTool._run "1" "hi" =
      getErrorWithUsername "alice" ("Error posting reply tweet: " ++ "timeout")
    ∧ containsStr (timeoutTool._run "1" "hi") "timeout" := by
  have h := exceptions_caught timeoutTool "1" "hi" "timeout" "" (Or.inr rfl)
  have h1 := h.2.1 timeoutClient rfl rfl
  exact ⟨h1, by rw [h1]; exact h.2.2⟩

/-- C4: once a response is obtained, `_run` returns exactly the success
string with the nested `data.id` identifier substituted when that identifier
is present, and the generic failure string otherwise. -/
theorem response_interpretation (t : TwitterReplyTweet)
    (tid txt gmsg : String) (c : TwitterClient) (r : Response)
    (hgate : t.twitter.use_key = true
      ∨ t.check_rate_limit 48 1440 = .ok (false, gmsg))
    (hc : t.twitter.get_client = .ok (some c))
    (hr : c.create_tweet txt t.twitter.use_key tid = .ok r) :
    t._run tid txt =
      match r.data with
      | some d =>
          match d.id with
          | some i => "Reply posted successfully! Reply Tweet ID: " ++ i
          | none => getErrorWithUsername t.username "Failed to post reply tweet."
      | none => getErrorWithUsername t.username "Failed to post reply tweet." := by
  rcases runT_pass_gate t tid txt gmsg hgate with h | h <;>
    · unfold TwitterReplyTweet._run
      rw [h]
      exact stepsTwoToFour_create_ok t tid txt _ c r hc hr

/-- Witness for C4: a response with reply identifier "123" produces exactly
the expected success string. -/
theorem response_interpretation_witness :
    okTool._run "1" "hi" = "Reply posted successfully! Reply Tweet ID: 123" := by
  have h := response_interpretation okTool "1" "hi" "" replyOkClient
    ⟨some ⟨some "123"⟩⟩ (Or.inr rfl) rfl rfl
  exact h.trans rfl

/-- C5: when `get_client()` returns no client, `_run` returns the
failed-to-get-client error string and performs no `create_tweet` network
call. -/
theorem no_client_short_circuit (t : TwitterReplyTweet)
    (tid txt gmsg : String)
    (hgate : t.twitter.use_key = true
      ∨ t.check_rate_limit 48 1440 = .ok (false, gmsg))
    (hc : t.twitter.get_client = .ok none) :
    t._run tid txt =
      getErrorWithUsername t.username
        "Failed to get Twitter client. Please check your authentication."
    ∧ (t._runT tid txt).trace.createCalls = [] := by
  rcases runT_pass_gate t tid txt gmsg hgate with h | h <;>
    · constructor
      · unfold TwitterReplyTweet._run
        rw [h]
        exact (stepsTwoToFour_no_client t tid txt _ hc).1
      · rw [h]
        exact (stepsTwoToFour_no_client t tid txt _ hc).2

/-- Witness for C5 at a concrete tool with no client available. -/
theorem no_client_short_circuit_witness :
    noClientTool._run "1" "hi" =
      getErrorWithUsername "alice"
        "Failed to get Twitter client. Please check your authentication."
    ∧ (noClientTool._runT "1" "hi").trace.createCalls = [] :=
  no_client_short_circuit noClientTool "1" "hi" "" (Or.inr rfl) rfl

/-- C6: a text longer than 280 characters fails schema validation with a
ValidationError, so the framework pipeline never invokes `_run` on it. -/
theorem overlong_text_rejected (tid txt : String) (h : txt.length > 280) :
    mkTwitterReplyTweetInput tid txt = .error "ValidationError: text too long"
    ∧ ∀ t : TwitterReplyTweet,
        invokeTool t tid txt = .error "ValidationError: text too long" := by
  constructor
  · unfold mkTwitterReplyTweetInput
    simp [h]
  · intro t
    unfold invokeTool mkTwitterReplyTweetInput
    simp [h]

set_option maxRecDepth 4000 in
/-- Witness for C6 at a 281-character text. -/
theorem overlong_text_rejected_witness :
    longText.length > 280
    ∧ mkTwitterReplyTweetInput "1" longText =
        .error "ValidationError: text too long"
    ∧ invokeTool noClientTool "1" longText =
        .error "ValidationError: text too long" :=
  ⟨by decide, (overlong_text_rejected "1" longText (by decide)).1,
   (overlong_text_rejected "1" longText (by decide)).2 noClientTool⟩

/-- C7: for every tool state and every input, the asynchronous entry point
returns exactly the string the synchronous one returns. -/
theorem arun_eq_run (t : TwitterReplyTweet) (tid txt : String) :
    t._arun tid txt = t._run tid txt := rfl

/-- C8 counterexample: an input whose `tweet_id` is the empty string is NOT
rejected — it passes schema validation and the operation runs (here returning
the missing-client error string, proof that `_run` executed). -/
theorem empty_target_id_not_rejected :
    mkTwitterReplyTweetInput "" "hi" = .ok ⟨"", "hi"⟩
    ∧ invokeTool noClientTool "" "hi" =
        .ok (getErrorWithUsername "alice"
          "Failed to get Twitter client. Please check your authentication.") :=
  ⟨rfl, rfl⟩

/-- C8 (amended): the schema requires `tweet_id` to be present but performs
no non-emptiness or format validation: any input whose text respects the
280-character bound passes validation — the empty `tweet_id` included — and
`_run` then executes on it. -/
theorem target_id_presence_only (tid txt : String) (h : txt.length ≤ 280) :
    mkTwitterReplyTweetInput tid txt = .ok ⟨tid, txt⟩
    ∧ ∀ t : TwitterReplyTweet, invokeTool t tid txt = .ok (t._run tid txt) := by
  have hne : ¬ txt.length > 280 := by omega
  constructor
  · unfold mkTwitterReplyTweetInput
    simp [hne]
  · intro t
    unfold invokeTool mkTwitterReplyTweetInput
    simp [hne]

/-- Witness for the amended C8 at the empty `tweet_id`. -/
theorem target_id_presence_only_witness :
    ("hi" : String).length ≤ 280
    ∧ mkTwitterReplyTweetInput "" "hi" = .ok ⟨"", "hi"⟩
    ∧ invokeTool noClientTool "" "hi" = .ok (noClientTool._run "" "hi") :=
  ⟨by decide, (target_id_presence_only "" "hi" (by decide)).1,
   (target_id_presence_only "" "hi" (by decide)).2 noClientTool⟩

/-- C9: `_run` mutates no field of the tool (the tool after the call is the
tool before it), performs at most one `create_tweet` network call, and
performs none when short-circuited by the rate limit or by a missing
client. -/
theorem frame_and_effects (t : TwitterReplyTweet) (tid txt : String) :
    (t._runT tid txt).self_after = t
    ∧ (t._runT tid txt).trace.createCalls.length ≤ 1
    ∧ (∀ err, t.twitter.use_key = false →
        t.check_rate_limit 48 1440 = .ok (true, err) →
        (t._runT tid txt).trace.createCalls = [])
    ∧ (t.twitter.get_client = .ok none →
        (t._runT tid txt).trace.createCalls = []) := by
  refine ⟨?_, ?_, ?_, ?_⟩
  · unfold TwitterReplyTweet._runT
    rcases hk : t.twitter.use_key with _ | _
    · rcases hr : t.check_rate_limit 48 1440 with e | ⟨lim, err⟩
      · simp [hr]
      · rcases lim with _ | _
        · simp [hr, stepsTwoToFour_self]
        · simp [hr]
    · simp [stepsTwoToFour_self]
  · unfold TwitterReplyTweet._runT
    rcases hk : t.twitter.use_key with _ | _
    · rcases hr : t.check_rate_limit 48 1440 with e | ⟨lim, err⟩
      · simp [hr]
      · rcases lim with _ | _
        · simp only [hr, Bool.not_false, if_true, if_false]
          rcases stepsTwoToFour_createCalls t tid txt ⟨[(48, 1440)], 0, []⟩
            with h | h <;> simp [h]
        · simp [hr]
    · rcases stepsTwoToFour_createCalls t tid txt ⟨[], 0, []⟩
        with h | h <;> simp [h]
  · intro err hk hr
    unfold TwitterReplyTweet._runT
    simp [hk, hr]
  · intro hgc
    unfold TwitterReplyTweet._runT
    rcases hk : t.twitter.use_key with _ | _
    · rcases hr : t.check_rate_limit 48 1440 with e | ⟨lim, err⟩
      · simp [hr]
      · rcases lim with _ | _
        · simp only [hr, Bool.not_false, if_true, if_false]
          exact (stepsTwoToFour_no_client t tid txt _ hgc).2
        · simp [hr]
    · exact (stepsTwoToFour_no_client t tid txt _ hgc).2

/-- Witness for C9 at a concrete rate-limited tool. -/
theorem frame_and_effects_witness :
    (limitedTool._runT "1" "hi").self_after = limitedTool
    ∧ (limitedTool._runT "1" "hi").trace.createCalls = [] :=
  ⟨(frame_and_effects limitedTool "1" "hi").1,
   (frame_and_effects limitedTool "1" "hi").2.2.1 "Rate limit exceeded" rfl rfl⟩

/-- C10: an exception from `check_rate_limit` itself is caught by the same
handler — the `try` block opens before step 1 — and becomes the returned
error string containing the exception's message; `_run`, being a total
function of the tool and the inputs, raises for no collaborator behavior. -/
theorem rate_check_exception_caught (t : TwitterReplyTweet)
    (tid txt e : String)
    (huse : t.twitter.use_key = false)
    (herr : t.check_rate_limit 48 1440 = .error e) :
    t._run tid txt =
      getErrorWithUsername t.username ("Error posting reply tweet: " ++ e)
    ∧ containsStr (t._run tid txt) e := by
  have h1 : t._run tid txt =
      getErrorWithUsername t.username ("Error posting reply tweet: " ++ e) := by
    unfold TwitterReplyTweet._run TwitterReplyTweet._runT
    simp [huse, herr]
  refine ⟨h1, ?_⟩
  rw [h1]
  exact getErrorWithUsername_contains_msg_suffix t.username _ e

/-- Witness for C10 at a concrete tool whose rate-limit check raises. -/
theorem rate_check_exception_caught_witness :
    rateRaiseTool._run "1" "hi" =
      getErrorWithUsername "alice" ("Error posting reply tweet: " ++ "boom")
    ∧ containsStr (rateRaiseTool._run "1" "hi") "boom" :=
  rate_check_exception_caught rateRaiseTool "1" "hi" "boom" rfl rfl
